import Mathlib

/-!
Shallow embedding of the apify_workflow upload-queue pipeline:
the `google_sheets_queue` class (src/google_spread_sheet_queue.py), the
spreadsheet sink `append_or_create_tab_by_id` (src/google_spread_sheet.py),
and the row normalizers and URL-rewrite rule (src/helper_functions.py),
together with proofs settling the specification claims about them.
-/

namespace ApifyWorkflow

/-- Model of a Python runtime value as it occurs in the scraped JSON
records: `None`, a string, an integer or a boolean. -/
inductive PyVal where
  | none
  | str (s : String)
  | int (n : Int)
  | bool (b : Bool)
deriving DecidableEq, Repr

/-- Python truthiness `bool(v)`: `None`, `""`, `0` and `False` are falsy. -/
def pyTruthy : PyVal → Bool
  | PyVal.none => false
  | PyVal.str s => s != ""
  | PyVal.int n => n != 0
  | PyVal.bool b => b

/-- Python `str(v)` on the modelled values. -/
def pyStr : PyVal → String
  | PyVal.none => "None"
  | PyVal.str s => s
  | PyVal.int n => toString n
  | PyVal.bool b => if b then "True" else "False"

/-- Model of a Python dict with string keys, as an association list
(first binding wins, matching dicts which have at most one binding). -/
def PyDict := List (String × PyVal)

/-- Python `result.get(key)`: the bound value, or `None` when the key is
absent. -/
def dict_get (d : PyDict) (k : String) : PyVal :=
  match d with
  | [] => PyVal.none
  | (k', v) :: rest => if k' = k then v else dict_get rest k

/-- The Python exceptions raised by the modelled code. -/
inductive PyErr where
  | indexError (msg : String)
  | typeError (msg : String)
deriving DecidableEq, Repr

/-- State of a `google_sheets_queue` object (src/google_spread_sheet_queue.py):
the pending item list `self.items`, the target tab name `self.sheet_name`,
and the mutation flag `self.is_dequeue_safe`. -/
structure google_sheets_queue (α : Type) where
  items : List α
  sheet_name : String
  is_dequeue_safe : Bool
deriving DecidableEq, Repr

namespace google_sheets_queue

/-- The body of `__init__(self, sheet_name)`: empty items, dequeue safe. -/
def init (sheet_name : String) : google_sheets_queue α :=
  { items := [], sheet_name := sheet_name, is_dequeue_safe := true }

/-- Python `is_empty(self)`: `len(self.items) == 0`. -/
def is_empty (q : google_sheets_queue α) : Bool :=
  q.items.length == 0

/-- First statement of `enqueue`: `self.is_dequeue_safe = False`. -/
def enqueue_mark (q : google_sheets_queue α) : google_sheets_queue α :=
  { q with is_dequeue_safe := false }

/-- Second statement of `enqueue`: `self.items.append(item)`. -/
def enqueue_append (q : google_sheets_queue α) (item : α) : google_sheets_queue α :=
  { q with items := q.items ++ [item] }

/-- Third statement of `enqueue`: `self.is_dequeue_safe = True`. -/
def enqueue_clear (q : google_sheets_queue α) : google_sheets_queue α :=
  { q with is_dequeue_safe := true }

/-- Python `enqueue(self, item)`: mark mutation in progress, append `item` at the
tail, clear the mark. -/
def enqueue (q : google_sheets_queue α) (item : α) : google_sheets_queue α :=
  enqueue_clear (enqueue_append (enqueue_mark q) item)

/-- Python `dequeue(self)`: `self.items.pop(0)` when non-empty, otherwise
`raise IndexError("dequeue from empty queue")`. -/
def dequeue (q : google_sheets_queue α) :
    Except PyErr (α × google_sheets_queue α) :=
  if q.is_empty then Except.error (PyErr.indexError "dequeue from empty queue")
  else
    match q.items with
    | [] => Except.error (PyErr.indexError "dequeue from empty queue")
    | x :: rest => Except.ok (x, { q with items := rest })

/-- Python `size(self)`: `len(self.items)`. -/
def size (q : google_sheets_queue α) : Nat :=
  q.items.length

/-- Python `peek(self)`: `self.items[0]` when non-empty, otherwise
`raise IndexError("peek from empty queue")`. -/
def peek (q : google_sheets_queue α) : Except PyErr α :=
  if q.is_empty then Except.error (PyErr.indexError "peek from empty queue")
  else
    match q.items with
    | [] => Except.error (PyErr.indexError "peek from empty queue")
    | x :: _ => Except.ok x

/-- Repeated `dequeue` with the given fuel, collecting the returned items
until the queue errors out empty. -/
def drainFuel : Nat → google_sheets_queue α → List α
  | 0, _ => []
  | Nat.succ n, q =>
    match dequeue q with
    | Except.error _ => []
    | Except.ok (x, q') => x :: drainFuel n q'

/-- Dequeue every pending entry, in order: `size q` successive dequeues. -/
def drain (q : google_sheets_queue α) : List α :=
  drainFuel (size q) q

end google_sheets_queue

/-- A worksheet ("tab") of a spreadsheet: its title, the row/column
capacity it was created with, and its contents as a list of rows. -/
structure Worksheet where
  title : String
  rowsCap : Nat
  colsCap : Nat
  contents : List (List String)
deriving DecidableEq, Repr

/-- A spreadsheet: the ordered list of its worksheets. The sheet identifier
selects which spreadsheet state `open_by_key` hands back; authentication and
the network client are external I/O outside this model. -/
structure Spreadsheet where
  worksheets : List Worksheet
deriving DecidableEq, Repr

/-- Lookup `ss.worksheet(sheet_name)`: the first worksheet with the given title;
gspread raises WorksheetNotFound when there is none, modelled as
`Option.none`. -/
def findWorksheet (ss : Spreadsheet) (name : String) : Option Worksheet :=
  ss.worksheets.find? (fun ws => ws.title == name)

/-- Effect of `ws.append_row(row)` through a handle obtained by title
lookup: the row is appended to the first worksheet with that title. -/
def appendRowFirst : List Worksheet → String → List String → List Worksheet
  | [], _, _ => []
  | ws :: rest, name, row =>
    if ws.title == name then
      { ws with contents := ws.contents ++ [row] } :: rest
    else
      ws :: appendRowFirst rest name row

/-- Effect of `ws.append_row(row)` lifted to the whole spreadsheet. -/
def appendRow (ss : Spreadsheet) (name : String) (row : List String) :
    Spreadsheet :=
  { worksheets := appendRowFirst ss.worksheets name row }

/-- Creation `ss.add_worksheet(title=sheet_name, rows=100, cols=20)`: a fresh empty
worksheet with the given capacity, added after the existing ones. -/
def addWorksheet (ss : Spreadsheet) (name : String) (rowsCap colsCap : Nat) :
    Spreadsheet :=
  { worksheets := ss.worksheets ++
      [{ title := name, rowsCap := rowsCap, colsCap := colsCap, contents := [] }] }

/-- Body of `append_or_create_tab_by_id(sheet_id, sheet_name, rows)`
(src/google_spread_sheet.py) acting on the spreadsheet state `ss` that
`open_by_key(sheet_id)` designates. It looks the tab up by name; when
absent it creates it with capacity 100 rows by 20 columns and appends
`rows[0]`; then, under `if rows:`, it appends `rows[1]`. Python list
indexing out of range raises IndexError. -/
def append_or_create_tab_by_id (ss : Spreadsheet) (sheet_name : String)
    (rows : List (List String)) : Except PyErr Spreadsheet :=
  match findWorksheet ss sheet_name with
  | Option.some _ =>
    if rows.isEmpty then Except.ok ss
    else
      match rows.get? 1 with
      | Option.some r => Except.ok (appendRow ss sheet_name r)
      | Option.none => Except.error (PyErr.indexError "list index out of range")
  | Option.none =>
    match rows.get? 0 with
    | Option.none => Except.error (PyErr.indexError "list index out of range")
    | Option.some h =>
      let ss1 := appendRow (addWorksheet ss sheet_name 100 20) sheet_name h
      if rows.isEmpty then Except.ok ss1
      else
        match rows.get? 1 with
        | Option.some r => Except.ok (appendRow ss1 sheet_name r)
        | Option.none => Except.error (PyErr.indexError "list index out of range")

/-- A positional argument at the Python call sites we model: a string or a
list of rows. -/
inductive PyArg where
  | str (s : String)
  | rowList (rs : List (List String))
deriving DecidableEq, Repr

/-- A Python-level call of `append_or_create_tab_by_id` with a positional
argument list. The def takes exactly three positional parameters
`(sheet_id, sheet_name, rows)` with no defaults, so a call with any other
number of arguments raises TypeError before the body runs; at the modelled
call sites the arguments only ever have the shapes below. -/
def call_append_or_create_tab_by_id (ss : Spreadsheet) (args : List PyArg) :
    Except PyErr Spreadsheet :=
  match args with
  | [PyArg.str _sheet_id, PyArg.str sheet_name, PyArg.rowList rows] =>
    append_or_create_tab_by_id ss sheet_name rows
  | _ =>
    Except.error (PyErr.typeError
      "append_or_create_tab_by_id() missing 1 required positional argument: rows")

/-- A Python-level call of the `google_sheets_queue` constructor with a
positional argument list. `__init__(self, sheet_name)` takes exactly one
positional parameter besides `self`, so any other arity raises TypeError. -/
def call_google_sheets_queue_init (args : List PyArg) :
    Except PyErr (google_sheets_queue (List (List String))) :=
  match args with
  | [PyArg.str sheet_name] => Except.ok (google_sheets_queue.init sheet_name)
  | _ =>
    Except.error (PyErr.typeError
      "__init__() takes 2 positional arguments but 3 were given")

/-- The queue construction `google_sheets_queue(sheet_id, page_name)` on
line 225 of src/helper_functions.py, inside `scrape_industry`. -/
def scrape_industry_queue_init (sheet_id page_name : String) :
    Except PyErr (google_sheets_queue (List (List String))) :=
  call_google_sheets_queue_init [PyArg.str sheet_id, PyArg.str page_name]

/-- The queue construction `google_sheets_queue(sheet_id, page_name)` on
line 254 of src/helper_functions.py, inside `scrape_personal`. -/
def scrape_personal_queue_init (sheet_id page_name : String) :
    Except PyErr (google_sheets_queue (List (List String))) :=
  call_google_sheets_queue_init [PyArg.str sheet_id, PyArg.str page_name]

/-- The state one iteration of `worker` (src/google_spread_sheet_queue.py)
reads and writes: the queue object, the spreadsheet behind the sink, the
total units passed to `time.sleep`, and the errors printed by the
`except` block. -/
structure WorkerState where
  queue : google_sheets_queue (List (List String))
  sheet : Spreadsheet
  slept : Nat
  log : List PyErr
deriving DecidableEq, Repr

/-- The polling guard of the worker:
`not self.is_empty() and self.is_dequeue_safe`. -/
def workerGuard (s : WorkerState) : Bool :=
  (!(google_sheets_queue.is_empty s.queue)) && s.queue.is_dequeue_safe

/-- The body of the `try:` block of one `while True` iteration of `worker`:
the state at exit, together with the exception if one was raised there.
The delivery statement is the two-argument call
`google_spread_sheet.append_or_create_tab_by_id(self.sheet_name, item)`. -/
def worker_body (s : WorkerState) : WorkerState × Option PyErr :=
  if workerGuard s then
    match google_sheets_queue.dequeue s.queue with
    | Except.error e => (s, Option.some e)
    | Except.ok (item, q') =>
      match call_append_or_create_tab_by_id s.sheet
          [PyArg.str q'.sheet_name, PyArg.rowList item] with
      | Except.ok sheet' => ({ s with queue := q', sheet := sheet' }, Option.none)
      | Except.error e => ({ s with queue := q' }, Option.some e)
  else
    ({ s with slept := s.slept + 10 }, Option.none)

/-- One full iteration of the worker loop: run the try-body; on any
exception the `except Exception` block prints it and sleeps 10, and the
loop continues either way. -/
def workerStep (s : WorkerState) : WorkerState :=
  match worker_body s with
  | (s', Option.none) => s'
  | (s', Option.some e) =>
    { s' with slept := s'.slept + 10, log := s'.log ++ [e] }

/-- Iterating `n` times of the never-terminating worker loop. -/
def workerRun : Nat → WorkerState → WorkerState
  | 0, s => s
  | Nat.succ n, s => workerRun n (workerStep s)

/-- An `enqueue` performed by a producer on the shared state. -/
def stateEnqueue (s : WorkerState) (item : List (List String)) : WorkerState :=
  { s with queue := google_sheets_queue.enqueue s.queue item }

/-- Python whitespace, the characters `str.strip()` removes. -/
def pyIsSpace (c : Char) : Bool :=
  c == ' ' || c == '\t' || c == '\n' || c == '\r' || c == '\x0b' || c == '\x0c'

/-- Python `s.strip()`: remove whitespace from both ends. -/
def pyStrip (s : String) : String :=
  String.mk (((s.data.dropWhile pyIsSpace).reverse.dropWhile pyIsSpace).reverse)

/-- Substring test on character lists, Python `pat in s`. -/
def listContainsSub (pat : List Char) : List Char → Bool
  | [] => pat.isEmpty
  | c :: t => pat.isPrefixOf (c :: t) || listContainsSub pat t

/-- Python `pat in s` on strings. -/
def containsSub (s pat : String) : Bool :=
  listContainsSub pat.data s.data

/-- Python `s.strip(ch)` for a single strip character: remove every copy of
`ch` from both ends. -/
def stripChar (ch : Char) (cs : List Char) : List Char :=
  (((cs.dropWhile (fun c => c == ch)).reverse.dropWhile (fun c => c == ch))).reverse

/-- Python `s.split(sep)` for a one-character separator: never returns an
empty list, and `"".split(sep)` is `[""]`. -/
def splitOnChar (sep : Char) : List Char → List (List Char)
  | [] => [[]]
  | c :: t =>
    match splitOnChar sep t with
    | [] => [[]]
    | h :: r => if c == sep then [] :: h :: r else (c :: h) :: r

/-- Characters a URL scheme may contain after its first letter. -/
def isSchemeChar (c : Char) : Bool :=
  c.isAlpha || c.isDigit || c == '+' || c == '-' || c == '.'

/-- Modelled from urllib.parse.urlparse: remove a leading "scheme:" when
the text before the first colon is a non-empty valid scheme (a letter
followed by scheme characters). -/
def dropScheme (cs : List Char) : List Char :=
  let before := cs.takeWhile (fun c => c != ':')
  let after := cs.dropWhile (fun c => c != ':')
  match before, after with
  | b0 :: bs, _ :: rest =>
    if b0.isAlpha && bs.all isSchemeChar then rest else cs
  | _, _ => cs

/-- Modelled from urllib.parse.urlparse, restricted to the two components
`linkedin_to_sales_company_url` reads: the netloc (present only after a
leading "//", running to the next '/', '?' or '#') and the path (cut at
the first '?' or '#'). -/
def urlparse_netloc_path (url : String) : String × String :=
  let cs := dropScheme url.data
  match cs with
  | '/' :: '/' :: rest =>
    let netloc := rest.takeWhile (fun c => c != '/' && c != '?' && c != '#')
    let tail := rest.dropWhile (fun c => c != '/' && c != '?' && c != '#')
    let path := tail.takeWhile (fun c => c != '?' && c != '#')
    (String.mk netloc, String.mk path)
  | _ =>
    (String.mk [], String.mk (cs.takeWhile (fun c => c != '?' && c != '#')))

/-- Function `linkedin_to_sales_company_url(company_url)` (src/helper_functions.py
lines 8-44): rewrite a LinkedIn company profile URL into the Sales
Navigator company URL. Every raise inside the `try:` is caught by the
`except` and the function returns `""`; the `isinstance(company_url, str)`
check is vacuous here because the model types the input as a string. -/
def linkedin_to_sales_company_url (company_url : String) : String :=
  if pyStrip company_url == "" then ""
  else
    let stripped := pyStrip company_url
    let parsed := urlparse_netloc_path stripped
    if !(containsSub parsed.1 "linkedin.com") then ""
    else
      let path := stripChar '/' parsed.2.data
      let parts := splitOnChar '/' path
      match parts with
      | p0 :: p1 :: _ =>
        if String.mk p0 != "company" then ""
        else "https://www.linkedin.com/sales/company/" ++ String.mk p1 ++ "/"
      | _ => ""

/-- The fixed ordered 10-column company header
(src/helper_functions.py lines 59-63). -/
def companyHeader : List String :=
  ["Company Name", "Linkedin URL", "Sales Navigator URL", "Website",
   "Employee Count", "Overview", "Headquarters", "Total Jobs",
   "Job Titles", "Frequent Jobs"]

/-- The nested `get_value(*keys)` helper of `convert_json_to_csv_row`
(src/helper_functions.py lines 66-70): the first key whose bound value is
truthy wins, rendered with `str`; otherwise `""`. -/
def get_value (result : PyDict) : List String → String
  | [] => ""
  | key :: keys =>
    if pyTruthy (dict_get result key) then pyStr (dict_get result key)
    else get_value result keys

/-- Function `convert_json_to_csv_row(result)` (src/helper_functions.py lines
46-85): the `[header, row]` pair, with columns 4 to 10 of the data row
hard-coded to `""` in the source. -/
def convert_json_to_csv_row (result : PyDict) : List (List String) :=
  [companyHeader,
   [get_value result ["company_name", "companyName"],
    get_value result ["company_linkedin", "companyLinkedinUrl"],
    linkedin_to_sales_company_url
      (get_value result ["company_linkedin", "companyLinkedinUrl"]),
    "", "", "", "", "", "", ""]]

/-- The fixed ordered 14-column person header
(src/helper_functions.py lines 132-140). -/
def personHeader : List String :=
  ["First Name", "Last Name", "Full Name",
   "Designation", "Headline", "Location",
   "Industry",
   "Company Name", "Company Linkedin URL", "Company Sales Navigator URL",
   "Lead (Sales) URL",
   "Picture URL", "Email",
   "Scraped At"]

/-- The nested `get_value(*keys)` helper of
`convert_person_json_to_csv_row` (src/helper_functions.py lines 143-148):
the first key whose value is not None and whose stripped string form is
non-empty wins, returned stripped; otherwise `""`. -/
def get_value_person (result : PyDict) : List String → String
  | [] => ""
  | key :: keys =>
    let val := dict_get result key
    if val != PyVal.none && pyStrip (pyStr val) != "" then pyStrip (pyStr val)
    else get_value_person result keys

/-- Python `s.replace(pat, repl)` on character lists, fuelled by the input
length (one fuel unit consumes at least one character, so fuel
`cs.length` is exact for the non-empty patterns at the call site). -/
def replaceSubFuel (pat repl : List Char) : Nat → List Char → List Char
  | 0, cs => cs
  | _, [] => []
  | Nat.succ n, c :: t =>
    if pat.isPrefixOf (c :: t) then
      repl ++ replaceSubFuel pat repl n (t.drop (pat.length - 1))
    else c :: replaceSubFuel pat repl n t

/-- Python `s.replace(pat, repl)`: replace every occurrence. -/
def replaceSub (pat repl cs : List Char) : List Char :=
  replaceSubFuel pat repl cs.length cs

/-- The local `linkedin_to_sales_company_url` helper nested inside
`convert_person_json_to_csv_row` (src/helper_functions.py lines 152-165):
string-replacement based, distinct from the module-level rule of the same
name. -/
def person_linkedin_to_sales_company_url (company_linkedin_url : String) :
    String :=
  if company_linkedin_url == "" then ""
  else
    let u := pyStrip company_linkedin_url
    if containsSub u "/sales/company/" then u
    else
      let endsSlash := match u.data.getLast? with
        | Option.some c => c == '/'
        | Option.none => false
      let u2 := if endsSlash then u else u ++ "/"
      if containsSub u2 "linkedin.com/company/" then
        String.mk (replaceSub "linkedin.com/company/".data
          "linkedin.com/sales/company/".data u2.data)
      else ""

/-- Function `convert_person_json_to_csv_row(result)` (src/helper_functions.py
lines 117-201): the `[header, row]` pair for a person record. -/
def convert_person_json_to_csv_row (result : PyDict) : List (List String) :=
  let company_linkedin :=
    get_value_person result ["company_linkedin", "companyLinkedinUrl"]
  let company_sales_url :=
    person_linkedin_to_sales_company_url company_linkedin
  [personHeader,
   [get_value_person result ["employee_first_name", "firstName"],
    get_value_person result ["employee_last_name", "lastName"],
    get_value_person result ["employee_full_name", "fullName", "name"],
    get_value_person result ["employee_experience_title", "title"],
    get_value_person result ["employee_linkedin_headline", "headline"],
    get_value_person result ["employee_location", "location"],
    get_value_person result ["company_industry"],
    get_value_person result ["company_name", "companyName", "company"],
    company_linkedin,
    company_sales_url,
    get_value_person result ["employee_linkedin", "linkedinUrl", "profileUrl"],
    get_value_person result ["pictureUrl"],
    get_value_person result ["employee_email"],
    get_value_person result ["scrapedAt"]]]

/-- A concrete row batch: a header row and one data row. -/
def exampleBatch : List (List String) := [["Company Name"], ["Acme"]]

/-- A second concrete row batch. -/
def exampleBatch2 : List (List String) := [["Company Name"], ["Globex"]]

/-- A concrete shared worker state: one pending batch, mutation flag safe,
spreadsheet empty. -/
def exampleWorkerState : WorkerState :=
  { queue := { items := [exampleBatch], sheet_name := "companies",
               is_dequeue_safe := true },
    sheet := { worksheets := [] },
    slept := 0,
    log := [] }

/-- A concrete worksheet named "companies" holding its header row. -/
def exampleTab : Worksheet :=
  { title := "companies", rowsCap := 100, colsCap := 20,
    contents := [["Company Name"]] }

/-- A spreadsheet already holding `exampleTab`. -/
def exampleSheetWithTab : Spreadsheet :=
  { worksheets := [exampleTab] }

/-- A concrete idle state: fresh empty queue, so the worker guard is
false. -/
def exampleIdleState : WorkerState :=
  { queue := google_sheets_queue.init "companies",
    sheet := { worksheets := [] },
    slept := 0,
    log := [] }

/-- Enqueue appends at the tail of the item list. -/
theorem google_sheets_queue.enqueue_items {α : Type}
    (q : google_sheets_queue α) (b : α) :
    (google_sheets_queue.enqueue q b).items = q.items ++ [b] := rfl

/-- Folding `enqueue` over a list appends it to the item list. -/
theorem google_sheets_queue.foldl_enqueue_items {α : Type} (bs : List α)
    (q : google_sheets_queue α) :
    (List.foldl google_sheets_queue.enqueue q bs).items = q.items ++ bs := by
  induction bs generalizing q with
  | nil => simp
  | cons b bs ih =>
    simp only [List.foldl_cons, ih, google_sheets_queue.enqueue_items,
      List.append_assoc, List.singleton_append]

/-- Draining with fuel equal to the pending count returns exactly the
item list. -/
theorem google_sheets_queue.drainFuel_eq {α : Type} :
    ∀ (l : List α) (q : google_sheets_queue α), q.items = l →
      google_sheets_queue.drainFuel l.length q = l := by
  intro l
  induction l with
  | nil => intro q h; rfl
  | cons x t ih =>
    intro q h
    simp only [List.length_cons, google_sheets_queue.drainFuel,
      google_sheets_queue.dequeue, google_sheets_queue.is_empty, h]
    simp only [List.length_cons, Nat.succ_ne_zero, beq_iff_eq,
      if_false, List.cons.injEq, true_and]
    exact ih _ rfl

/-- C2: enqueuing b1..bn on a single queue instance with no interleaved
dequeues and then dequeuing n times returns b1..bn in the enqueue order:
enqueue appends at the tail, dequeue removes the head. -/
theorem C2_fifo_order {α : Type} (sheet : String) (bs : List α) :
    google_sheets_queue.drain
      (List.foldl google_sheets_queue.enqueue
        (google_sheets_queue.init sheet) bs) = bs := by
  have h : (List.foldl google_sheets_queue.enqueue
      (google_sheets_queue.init (α := α) sheet) bs).items = bs := by
    simpa [google_sheets_queue.init] using
      google_sheets_queue.foldl_enqueue_items bs (google_sheets_queue.init sheet)
  unfold google_sheets_queue.drain google_sheets_queue.size
  rw [h]
  exact google_sheets_queue.drainFuel_eq bs _ h

/-- C5: dequeue on an empty queue raises IndexError, peek on an empty
queue raises the same error class without removing anything; dequeue on a
fresh queue fails, and after one enqueue then one dequeue a second
dequeue fails again. -/
theorem C5_empty_queue_errors {α : Type} (sheet : String) (b : α) :
    google_sheets_queue.dequeue
        (google_sheets_queue.init sheet : google_sheets_queue α)
      = Except.error (PyErr.indexError "dequeue from empty queue")
    ∧ google_sheets_queue.peek
        (google_sheets_queue.init sheet : google_sheets_queue α)
      = Except.error (PyErr.indexError "peek from empty queue")
    ∧ ∃ q', google_sheets_queue.dequeue
          (google_sheets_queue.enqueue (google_sheets_queue.init sheet) b)
        = Except.ok (b, q')
      ∧ google_sheets_queue.dequeue q'
        = Except.error (PyErr.indexError "dequeue from empty queue") :=
  ⟨rfl, rfl,
   ⟨{ items := [], sheet_name := sheet, is_dequeue_safe := true }, rfl, rfl⟩⟩

/-- When the polling guard holds, one worker iteration pops the head of
the queue and attempts the two-argument sink call, which raises
TypeError; the `except` block logs it and sleeps 10, and the spreadsheet
is unchanged. -/
theorem workerStep_guard_true (s : WorkerState) (h : workerGuard s = true) :
    workerStep s =
      { queue := { s.queue with items := s.queue.items.tail },
        sheet := s.sheet,
        slept := s.slept + 10,
        log := s.log ++ [PyErr.typeError
          "append_or_create_tab_by_id() missing 1 required positional argument: rows"] } := by
  have hne : s.queue.items ≠ [] := by
    intro hnil
    have hemp : google_sheets_queue.is_empty s.queue = true := by
      simp [google_sheets_queue.is_empty, hnil]
    simp [workerGuard, hemp] at h
  cases hq : s.queue.items with
  | nil => exact absurd hq hne
  | cons x t =>
    have hemp : google_sheets_queue.is_empty s.queue = false := by
      simp [google_sheets_queue.is_empty, hq]
    simp [workerStep, worker_body, h, google_sheets_queue.dequeue, hemp, hq,
      call_append_or_create_tab_by_id]

/-- When the polling guard is false, one worker iteration only sleeps 10
(the queue, the spreadsheet and the log are unchanged). -/
theorem workerStep_guard_false (s : WorkerState) (h : workerGuard s = false) :
    workerStep s = { s with slept := s.slept + 10 } := by
  simp [workerStep, worker_body, h]

/-- C6: enqueue sets the mutation mark before the append and clears it
after the append, so every completed enqueue leaves the mark safe; and
the worker removes an entry exactly when the queue is non-empty and the
mark is safe, otherwise it stays idle and sleeps the 10-unit backoff. -/
theorem C6_mutation_flag_discipline {α : Type} (q : google_sheets_queue α)
    (b : α) (s : WorkerState) :
    (google_sheets_queue.enqueue_append
        (google_sheets_queue.enqueue_mark q) b).is_dequeue_safe = false
    ∧ (google_sheets_queue.enqueue q b).is_dequeue_safe = true
    ∧ (google_sheets_queue.enqueue q b).items = q.items ++ [b]
    ∧ (workerStep s).queue.items
        = (if workerGuard s then s.queue.items.tail else s.queue.items)
    ∧ (workerGuard s = false → workerStep s = { s with slept := s.slept + 10 }) := by
  refine ⟨rfl, rfl, rfl, ?_, workerStep_guard_false s⟩
  by_cases hg : workerGuard s = true
  · rw [workerStep_guard_true s hg, if_pos hg]
  · have hg' : workerGuard s = false := by
      cases hgb : workerGuard s
      · rfl
      · exact absurd hgb hg
    rw [workerStep_guard_false s hg', if_neg hg]

/-- C6 witness: the mutation-flag discipline evaluated at a concrete
queue, item and idle state, discharging the guard-false hypothesis. -/
theorem C6_mutation_flag_discipline_witness :
    (google_sheets_queue.enqueue_append
        (google_sheets_queue.enqueue_mark
          (google_sheets_queue.init "companies"
            : google_sheets_queue (List (List String)))) exampleBatch).is_dequeue_safe = false
    ∧ (google_sheets_queue.enqueue
        (google_sheets_queue.init "companies") exampleBatch).is_dequeue_safe = true
    ∧ workerGuard exampleIdleState = false
    ∧ workerStep exampleIdleState
        = { exampleIdleState with slept := exampleIdleState.slept + 10 } := by
  have h := C6_mutation_flag_discipline
    (google_sheets_queue.init "companies"
      : google_sheets_queue (List (List String))) exampleBatch exampleIdleState
  exact ⟨h.1, h.2.1, by decide, h.2.2.2.2 (by decide)⟩

/-- C1: whenever the worker sees the queue non-empty and the mutation
flag safe it dequeues exactly one batch, but the sink call passes only
two positional arguments where `append_or_create_tab_by_id` requires
three `(sheet_id, sheet_name, rows)`, so every delivery raises TypeError:
the spreadsheet never receives the data row, the batch is dropped, and
the error is logged before the 10-unit backoff. -/
theorem C1_worker_delivery_arity_bug (s : WorkerState)
    (h : workerGuard s = true) :
    (workerStep s).queue.items = s.queue.items.tail
    ∧ (workerStep s).sheet = s.sheet
    ∧ (workerStep s).slept = s.slept + 10
    ∧ (workerStep s).log = s.log ++ [PyErr.typeError
        "append_or_create_tab_by_id() missing 1 required positional argument: rows"] := by
  rw [workerStep_guard_true s h]
  exact ⟨rfl, rfl, rfl, rfl⟩

/-- C1 witness: the failed delivery evaluated at a concrete state with
one pending batch and the flag safe. -/
theorem C1_worker_delivery_arity_bug_witness :
    workerGuard exampleWorkerState = true
    ∧ ((workerStep exampleWorkerState).queue.items
          = exampleWorkerState.queue.items.tail
      ∧ (workerStep exampleWorkerState).sheet = exampleWorkerState.sheet
      ∧ (workerStep exampleWorkerState).slept = exampleWorkerState.slept + 10
      ∧ (workerStep exampleWorkerState).log
          = exampleWorkerState.log ++ [PyErr.typeError
            "append_or_create_tab_by_id() missing 1 required positional argument: rows"]) :=
  ⟨by decide, C1_worker_delivery_arity_bug exampleWorkerState (by decide)⟩

/-- C3: both pipeline drivers construct the queue as
`google_sheets_queue(sheet_id, page_name)`, but `__init__` takes only
`sheet_name` besides `self`, so for every input the construction raises
TypeError instead of yielding a queue instance. -/
theorem C3_driver_queue_construction_raises (sheet_id page_name : String) :
    scrape_industry_queue_init sheet_id page_name
      = Except.error (PyErr.typeError
          "__init__() takes 2 positional arguments but 3 were given")
    ∧ scrape_personal_queue_init sheet_id page_name
      = Except.error (PyErr.typeError
          "__init__() takes 2 positional arguments but 3 were given") :=
  ⟨rfl, rfl⟩

/-- C4: evaluation at a failing input. The first cycle's delivery error
is caught and logged, the entry is dropped without re-enqueueing, the
worker sleeps the 10-unit backoff and keeps polling; but a batch enqueued
after the failure is again not delivered on the later cycle: the same
arity TypeError recurs and the spreadsheet stays empty. -/
theorem C4_error_backoff_never_delivers :
    (workerStep exampleWorkerState).queue.items = []
    ∧ (workerStep exampleWorkerState).slept = 10
    ∧ (workerStep exampleWorkerState).log.length = 1
    ∧ (workerStep exampleWorkerState).sheet = { worksheets := [] }
    ∧ (workerStep (stateEnqueue (workerStep exampleWorkerState)
        exampleBatch2)).queue.items = []
    ∧ (workerStep (stateEnqueue (workerStep exampleWorkerState)
        exampleBatch2)).slept = 20
    ∧ (workerStep (stateEnqueue (workerStep exampleWorkerState)
        exampleBatch2)).sheet = { worksheets := [] }
    ∧ (workerStep (stateEnqueue (workerStep exampleWorkerState)
        exampleBatch2)).log = [PyErr.typeError
          "append_or_create_tab_by_id() missing 1 required positional argument: rows",
        PyErr.typeError
          "append_or_create_tab_by_id() missing 1 required positional argument: rows"] := by
  decide

/-- Appending a row by title walks past every worksheet whose title does
not match. -/
theorem appendRowFirst_append_of_none (l : List Worksheet) (name : String)
    (h : ∀ ws ∈ l, (ws.title == name) = false) :
    ∀ (l2 : List Worksheet) (row : List String),
      appendRowFirst (l ++ l2) name row = l ++ appendRowFirst l2 name row := by
  induction l with
  | nil => intro l2 row; rfl
  | cons ws rest ih =>
    intro l2 row
    have hws := h ws (List.mem_cons_self ws rest)
    simp only [List.cons_append, appendRowFirst, hws, if_false,
      Bool.false_eq_true, List.cons.injEq, true_and]
    exact ih (fun w hw => h w (List.mem_cons_of_mem ws hw)) l2 row

/-- Appending a row by title never changes the number of worksheets. -/
theorem appendRowFirst_length (l : List Worksheet) (name : String)
    (row : List String) :
    (appendRowFirst l name row).length = l.length := by
  induction l with
  | nil => rfl
  | cons ws rest ih =>
    simp only [appendRowFirst]
    split
    · simp
    · simp [ih]

/-- Looking the title up after appending a row by that title yields the
previously-first worksheet with the row appended to its contents. -/
theorem find?_appendRowFirst (l : List Worksheet) (name : String)
    (row : List String) (ws0 : Worksheet)
    (h : l.find? (fun ws => ws.title == name) = Option.some ws0) :
    (appendRowFirst l name row).find? (fun ws => ws.title == name)
      = Option.some { ws0 with contents := ws0.contents ++ [row] } := by
  induction l with
  | nil => simp [List.find?] at h
  | cons ws rest ih =>
    by_cases hw : (ws.title == name) = true
    · simp only [List.find?, hw] at h
      injection h with h'
      subst h'
      simp only [appendRowFirst, hw, if_true]
      simp [List.find?, hw]
    · have hw' : (ws.title == name) = false := by
        cases hb : ws.title == name
        · rfl
        · exact absurd hb hw
      simp only [List.find?, hw'] at h
      simp only [appendRowFirst, hw', Bool.false_eq_true, if_false]
      simp only [List.find?, hw']
      exact ih h

/-- C7: the sink creates the named tab with fixed capacity 100 rows by 20
columns and writes the batch header as its first row exactly when the tab
is absent by name lookup; it appends the batch data row regardless; and
delivering to an existing tab performs no creation (worksheet count
unchanged) and no header write (only the data row is appended). -/
theorem C7_sink_create_and_append (ss : Spreadsheet) (name : String)
    (header dataRow : List String) :
    (findWorksheet ss name = Option.none →
      append_or_create_tab_by_id ss name [header, dataRow]
        = Except.ok { worksheets := ss.worksheets ++
            [{ title := name, rowsCap := 100, colsCap := 20,
               contents := [header, dataRow] }] })
    ∧ (∀ ws0, findWorksheet ss name = Option.some ws0 →
        ∃ ss', append_or_create_tab_by_id ss name [header, dataRow]
            = Except.ok ss'
          ∧ ss'.worksheets.length = ss.worksheets.length
          ∧ findWorksheet ss' name
              = Option.some { ws0 with contents := ws0.contents ++ [dataRow] }) := by
  constructor
  · intro h
    have hall : ∀ ws ∈ ss.worksheets, (ws.title == name) = false := by
      intro ws hmem
      have hne := List.find?_eq_none.mp h ws hmem
      cases hb : ws.title == name
      · rfl
      · exact absurd hb hne
    unfold append_or_create_tab_by_id
    rw [show findWorksheet ss name = Option.none from h]
    simp only [List.isEmpty_cons, List.get?]
    unfold appendRow addWorksheet
    simp only [appendRowFirst_append_of_none ss.worksheets name hall,
      appendRowFirst, beq_self_eq_true, if_true, List.nil_append]
    simp
  · intro ws0 h
    refine ⟨appendRow ss name dataRow, ?_, ?_, ?_⟩
    · unfold append_or_create_tab_by_id
      rw [show findWorksheet ss name = Option.some ws0 from h]
      rfl
    · exact appendRowFirst_length ss.worksheets name dataRow
    · simp only [findWorksheet, appendRow] at h ⊢
      exact find?_appendRowFirst ss.worksheets name dataRow ws0 h

/-- C7 witness: creation with header on an empty spreadsheet, and
header-free append on a spreadsheet already holding the tab. -/
theorem C7_sink_create_and_append_witness :
    (findWorksheet { worksheets := [] } "companies" = Option.none
     ∧ append_or_create_tab_by_id { worksheets := [] } "companies"
         [["Company Name"], ["Acme"]]
       = Except.ok { worksheets :=
           [{ title := "companies", rowsCap := 100, colsCap := 20,
              contents := [["Company Name"], ["Acme"]] }] })
    ∧ (findWorksheet exampleSheetWithTab "companies" = Option.some exampleTab
     ∧ ∃ ss', append_or_create_tab_by_id exampleSheetWithTab "companies"
           [["Company Name"], ["Globex"]] = Except.ok ss'
         ∧ ss'.worksheets.length = exampleSheetWithTab.worksheets.length
         ∧ findWorksheet ss' "companies"
             = Option.some { exampleTab with
                 contents := exampleTab.contents ++ [["Globex"]] }) := by
  constructor
  · exact ⟨by decide,
      (C7_sink_create_and_append { worksheets := [] } "companies"
        ["Company Name"] ["Acme"]).1 (by decide)⟩
  · exact ⟨by decide,
      (C7_sink_create_and_append exampleSheetWithTab "companies"
        ["Company Name"] ["Globex"]).2 exampleTab (by decide)⟩

/-- C8: for every mapping input the normalizers return `[header, row]`
with the fixed kind-specific ordered header (10 columns for company
records, 14 for person records) and a data row of the same length;
fields whose keys are all absent are rendered as the empty string (shown
both generally and on the empty mapping), and the functions are total,
so they never raise for missing fields. -/
theorem C8_normalizer_shape (d : PyDict) :
    companyHeader.length = 10
    ∧ personHeader.length = 14
    ∧ (∃ r, convert_json_to_csv_row d = [companyHeader, r]
        ∧ r.length = companyHeader.length)
    ∧ (∃ r, convert_person_json_to_csv_row d = [personHeader, r]
        ∧ r.length = personHeader.length)
    ∧ convert_json_to_csv_row [] = [companyHeader, List.replicate 10 ""]
    ∧ convert_person_json_to_csv_row [] = [personHeader, List.replicate 14 ""]
    ∧ (∀ keys, (∀ k ∈ keys, dict_get d k = PyVal.none) →
        get_value d keys = "")
    ∧ (∀ keys, (∀ k ∈ keys, dict_get d k = PyVal.none) →
        get_value_person d keys = "") := by
  refine ⟨rfl, rfl, ⟨_, rfl, rfl⟩, ⟨_, rfl, rfl⟩, by decide, by decide, ?_, ?_⟩
  · intro keys hk
    induction keys with
    | nil => rfl
    | cons k ks ih =>
      have h0 := hk k (List.mem_cons_self k ks)
      simp only [get_value, h0, pyTruthy, Bool.false_eq_true, if_false]
      exact ih (fun k' hk' => hk k' (List.mem_cons_of_mem k hk'))
  · intro keys hk
    induction keys with
    | nil => rfl
    | cons k ks ih =>
      have h0 := hk k (List.mem_cons_self k ks)
      simp only [get_value_person, h0]
      simp only [bne_self_eq_false, Bool.false_and, Bool.false_eq_true, if_false]
      exact ih (fun k' hk' => hk k' (List.mem_cons_of_mem k hk'))

/-- C8 witness: the absent-field rendering discharged on the empty
mapping and a concrete key list. -/
theorem C8_normalizer_shape_witness :
    (∀ k ∈ (["company_name", "companyName"] : List String),
      dict_get [] k = PyVal.none)
    ∧ get_value [] ["company_name", "companyName"] = ""
    ∧ get_value_person [] ["company_name", "companyName"] = "" := by
  refine ⟨by decide, ?_, ?_⟩
  · exact (C8_normalizer_shape []).2.2.2.2.2.2.1
      ["company_name", "companyName"] (by decide)
  · exact (C8_normalizer_shape []).2.2.2.2.2.2.2
      ["company_name", "companyName"] (by decide)

/-- C9: the company URL-rewrite maps a LinkedIn company profile URL to
the corresponding Sales Navigator company URL, and on malformed or
non-LinkedIn-company inputs it returns the empty string instead of
propagating an error: the model is a total function (mirroring the
catch-all except) whose every output is either `""` or a sales-company
URL. -/
theorem C9_url_rewrite_degrades (s : String) :
    linkedin_to_sales_company_url "https://www.linkedin.com/company/123/"
      = "https://www.linkedin.com/sales/company/123/"
    ∧ linkedin_to_sales_company_url "" = ""
    ∧ linkedin_to_sales_company_url "not a url" = ""
    ∧ linkedin_to_sales_company_url "https://example.com/company/5/" = ""
    ∧ linkedin_to_sales_company_url "https://www.linkedin.com/feed/" = ""
    ∧ (linkedin_to_sales_company_url s = ""
      ∨ ∃ cid, linkedin_to_sales_company_url s
          = "https://www.linkedin.com/sales/company/" ++ cid ++ "/") := by
  refine ⟨by decide, by decide, by decide, by decide, by decide, ?_⟩
  unfold linkedin_to_sales_company_url
  split
  · exact Or.inl rfl
  · dsimp only
    split
    · exact Or.inl rfl
    · split
      · split
        · exact Or.inl rfl
        · exact Or.inr ⟨_, rfl⟩
      · exact Or.inl rfl

/-- C10: in the company normalizer a key bound to a falsy value (None,
empty string, 0 or False) is treated exactly like an absent key: the
lookup helper skips it and falls through to the next alias key, and with
no alias left it renders the empty string; a record with company_name
bound to 0 yields an empty Company Name cell rather than the string
"0". -/
theorem C10_falsy_value_skipped (d : PyDict) (k : String) (ks : List String)
    (h : pyTruthy (dict_get d k) = false) :
    get_value d (k :: ks) = get_value d ks
    ∧ get_value d [] = ""
    ∧ convert_json_to_csv_row [("company_name", PyVal.int 0)]
        = [companyHeader, ["", "", "", "", "", "", "", "", "", ""]]
    ∧ pyStr (PyVal.int 0) = "0" := by
  refine ⟨?_, rfl, by decide, by decide⟩
  simp only [get_value, h, Bool.false_eq_true, if_false]

/-- C10 witness: the fall-through discharged on a record binding
company_name to the falsy integer 0. -/
theorem C10_falsy_value_skipped_witness :
    pyTruthy (dict_get [("company_name", PyVal.int 0)] "company_name") = false
    ∧ (get_value [("company_name", PyVal.int 0)] ["company_name", "companyName"]
        = get_value [("company_name", PyVal.int 0)] ["companyName"]
      ∧ get_value [("company_name", PyVal.int 0)] [] = ""
      ∧ convert_json_to_csv_row [("company_name", PyVal.int 0)]
          = [companyHeader, ["", "", "", "", "", "", "", "", "", ""]]
      ∧ pyStr (PyVal.int 0) = "0") :=
  ⟨by decide, C10_falsy_value_skipped [("company_name", PyVal.int 0)]
    "company_name" ["companyName"] (by decide)⟩

end ApifyWorkflow
